import Mathlib

/-!
Verification of the connector health-check aggregator
(`src/team-portal/app/api/status/route.js`) against its specification.

The route consists of two functions:

* `fetchWithTimeout(url, timeoutMs = 4000)` — wraps `fetch` in an
  `AbortController` whose timer fires after `timeoutMs` and aborts the
  in-flight request; on a resolved response it returns
  `{ ok: res.ok, status_code: res.status, latency_ms: Date.now() - start }`.
* `GET()` — iterates over the imported connector list with a sequential
  `for … await` loop; each iteration builds `healthUrl` by stripping one
  trailing slash from `connector.url` (the regex `/\/$/` is anchored at the
  end and non-global) and appending `/health`, calls `fetchWithTimeout`
  and pushes a report item; a thrown error (abort or network failure) is
  caught and pushed as `ok:false, status_code:null, latency_ms:null`.

The embedding replaces the network by an oracle `env : Nat → FetchOutcome`
giving, for each registry index, what the network would do for that probe:
either a response with an HTTP status arriving `arrival` milliseconds after
the request starts, or a network-level failure (connection refused, DNS,
TLS) that rejects the fetch promise.  Elapsed time is measured on a
monotone clock and modelled as a natural number.  Wall-clock timestamps
(`new Date().toISOString()`) are an oracle `now : Nat → String`.
-/

namespace StatusRoute

/-- A connector descriptor as found in `data/connectors.json`
(the fields the route reads). -/
structure Connector where
  id : String
  name : String
  url : String
deriving Repr, DecidableEq

/-- What the network does for one probe: either an HTTP response with
`status` that would arrive `arrival` ms after the request starts, or a
network-level failure that rejects the fetch promise. -/
inductive FetchOutcome where
  | response (status : Nat) (arrival : Nat)
  | networkError
deriving Repr, DecidableEq

/-- How a probe's promise can reject inside `fetchWithTimeout`:
aborted by the timeout controller, or a network-level failure. -/
inductive FetchError where
  | aborted
  | network
deriving Repr, DecidableEq

/-- The value `fetchWithTimeout` resolves with:
`{ ok: res.ok, status_code: res.status, latency_ms: Date.now() - start }`. -/
structure FetchValue where
  ok : Bool
  status_code : Nat
  latency_ms : Nat
deriving Repr, DecidableEq

/-- The default value of the `timeoutMs` parameter of `fetchWithTimeout`
(`timeoutMs = 4000` in the source); `GET` calls `fetchWithTimeout(healthUrl)`
with the default. -/
def defaultTimeoutMs : Nat := 4000

/-- WHATWG fetch `Response.ok`: true exactly when the status is in the
inclusive range 200–299. -/
def resOk (status : Nat) : Bool :=
  decide (200 ≤ status) && decide (status ≤ 299)

/-- Embedding of `fetchWithTimeout`.  If the response would arrive strictly
before the abort timer fires, the promise resolves with
`{ ok: res.ok, status_code: res.status, latency_ms: elapsed }`; if the
timer fires first the `AbortController` cancels the request and the
promise rejects with an abort error; a network failure rejects the
promise.  `clearTimeout` in the `finally` block has no observable effect
on the returned value. -/
def fetchWithTimeout (outcome : FetchOutcome) (timeoutMs : Nat) :
    Except FetchError FetchValue :=
  match outcome with
  | .networkError => .error .network
  | .response status arrival =>
      if arrival < timeoutMs then
        .ok { ok := resOk status, status_code := status, latency_ms := arrival }
      else
        .error .aborted

/-- Remove one final `'/'` from a character list, if the list ends in one. -/
def dropLastSlash : List Char → List Char
  | [] => []
  | [c] => if c = '/' then [] else [c]
  | c :: d :: rest => c :: dropLastSlash (d :: rest)

/-- JS `s.replace(/\/$/, "")`: the regex is anchored at the end and
non-global, so it removes at most one trailing slash. -/
def jsReplaceTrailingSlash (s : String) : String :=
  ⟨dropLastSlash s.data⟩

/-- `healthUrl` as computed in `GET`:
  \`${connector.url.replace(/\/$/, "")}/health\`. -/
def healthUrl (c : Connector) : String :=
  jsReplaceTrailingSlash c.url ++ "/health"

/-- One report item as pushed onto `items` by `GET`. -/
structure Item where
  id : String
  name : String
  url : String
  ok : Bool
  status_code : Option Nat
  latency_ms : Option Nat
  checked_at : String
deriving Repr, DecidableEq

/-- One iteration of the loop body of `GET`: call `fetchWithTimeout` with
the default timeout; on a resolved result push its fields, on a caught
error push `ok:false` with both `status_code` and `latency_ms` null. -/
def probeItem (c : Connector) (outcome : FetchOutcome) (checkedAt : String) : Item :=
  match fetchWithTimeout outcome defaultTimeoutMs with
  | .ok r =>
      { id := c.id, name := c.name, url := c.url, ok := r.ok,
        status_code := some r.status_code, latency_ms := some r.latency_ms,
        checked_at := checkedAt }
  | .error _ =>
      { id := c.id, name := c.name, url := c.url, ok := false,
        status_code := none, latency_ms := none, checked_at := checkedAt }

/-- The `for (const connector of connectors)` loop of `GET`, carrying the
registry index so the outcome and timestamp oracles can be consulted. -/
def GETloop (env : Nat → FetchOutcome) (now : Nat → String) :
    List Connector → Nat → List Item
  | [], _ => []
  | c :: rest, i => probeItem c (env i) (now i) :: GETloop env now rest (i + 1)

/-- Embedding of `GET`: the `items` array of the JSON body
`Response.json({ items })`, as a function of the registry and the
network/clock oracles. -/
def GET (registry : List Connector) (env : Nat → FetchOutcome)
    (now : Nat → String) : List Item :=
  GETloop env now registry 0

/-- Events observable on the network during one `GET` cycle: probe `index`
issues its HTTP request to `url`, or probe `index` settles (resolves or
rejects). -/
inductive Event where
  | fetchStart (index : Nat) (url : String)
  | fetchDone (index : Nat)
deriving Repr, DecidableEq

/-- The event trace of the loop of `GET`: because the loop body `await`s
`fetchWithTimeout(healthUrl)` before the next iteration begins, probe `i`
starts and settles before probe `i + 1` starts. -/
def GETtraceLoop : List Connector → Nat → List Event
  | [], _ => []
  | c :: rest, i =>
      .fetchStart i (healthUrl c) :: .fetchDone i :: GETtraceLoop rest (i + 1)

/-- The event trace of one full `GET` cycle. -/
def GETtrace (registry : List Connector) : List Event :=
  GETtraceLoop registry 0

/-- `oneAtATimeFrom t inFlight = true` when, given whether a probe is
currently in flight, no probe in `t` starts while another is in flight. -/
def oneAtATimeFrom : List Event → Bool → Bool
  | [], _ => true
  | .fetchStart _ _ :: rest, inFlight => !inFlight && oneAtATimeFrom rest true
  | .fetchDone _ :: rest, _ => oneAtATimeFrom rest false

/-- A trace probes one at a time when no request is issued while another
is still in flight: the in-flight count never exceeds one. -/
def oneAtATime (t : List Event) : Bool := oneAtATimeFrom t false

/-- The URLs of the HTTP requests issued in a trace, in order of issue. -/
def startUrls : List Event → List String
  | [] => []
  | .fetchStart _ u :: rest => u :: startUrls rest
  | .fetchDone _ :: rest => startUrls rest

/-! ### Helper lemmas -/

theorem resOk_eq_true (s : Nat) : resOk s = true ↔ 200 ≤ s ∧ s ≤ 299 := by
  simp [resOk]

theorem GETloop_length (env : Nat → FetchOutcome) (now : Nat → String) :
    ∀ (l : List Connector) (k : Nat), (GETloop env now l k).length = l.length := by
  intro l
  induction l with
  | nil => intro k; rfl
  | cons c rest ih => intro k; simp [GETloop, ih]

theorem GET_length (registry : List Connector) (env : Nat → FetchOutcome)
    (now : Nat → String) : (GET registry env now).length = registry.length :=
  GETloop_length env now registry 0

theorem GETloop_get (env : Nat → FetchOutcome) (now : Nat → String) :
    ∀ (l : List Connector) (k j : Nat) (h : j < l.length)
      (h2 : j < (GETloop env now l k).length),
      (GETloop env now l k).get ⟨j, h2⟩ =
        probeItem (l.get ⟨j, h⟩) (env (k + j)) (now (k + j)) := by
  intro l
  induction l with
  | nil => intro k j h h2; exact absurd h (Nat.not_lt_zero j)
  | cons c rest ih =>
    intro k j h h2
    cases j with
    | zero => simp [GETloop]
    | succ j =>
      have hr : j < rest.length := Nat.lt_of_succ_lt_succ h
      have hr2 : j < (GETloop env now rest (k + 1)).length := by
        rw [GETloop_length]; exact hr
      have harith : k + 1 + j = k + (j + 1) := by omega
      have step := ih (k + 1) j hr hr2
      rw [harith] at step
      simpa [GETloop, List.get_cons_succ] using step

theorem mem_GETloop (env : Nat → FetchOutcome) (now : Nat → String) :
    ∀ (l : List Connector) (k : Nat) (x : Item), x ∈ GETloop env now l k →
      ∃ c i, c ∈ l ∧ x = probeItem c (env i) (now i) := by
  intro l
  induction l with
  | nil => intro k x hx; simp [GETloop] at hx
  | cons c rest ih =>
    intro k x hx
    simp only [GETloop, List.mem_cons] at hx
    rcases hx with hx | hx
    · exact ⟨c, k, List.mem_cons_self c rest, hx⟩
    · obtain ⟨d, i, hd, hx⟩ := ih (k + 1) x hx
      exact ⟨d, i, List.mem_cons_of_mem c hd, hx⟩

theorem probeItem_cases (c : Connector) (o : FetchOutcome) (t : String) :
    (∃ s a, o = .response s a ∧ a < defaultTimeoutMs ∧
      probeItem c o t =
        { id := c.id, name := c.name, url := c.url, ok := resOk s,
          status_code := some s, latency_ms := some a, checked_at := t }) ∨
    probeItem c o t =
      { id := c.id, name := c.name, url := c.url, ok := false,
        status_code := none, latency_ms := none, checked_at := t } := by
  cases o with
  | networkError => right; rfl
  | response s a =>
    by_cases h : a < defaultTimeoutMs
    · left
      exact ⟨s, a, rfl, h, by simp [probeItem, fetchWithTimeout, h]⟩
    · right
      simp [probeItem, fetchWithTimeout, h]

theorem probeItem_id (c : Connector) (o : FetchOutcome) (t : String) :
    (probeItem c o t).id = c.id := by
  rcases probeItem_cases c o t with ⟨s, a, _, _, h⟩ | h <;> rw [h]

theorem GETloop_map_id (env : Nat → FetchOutcome) (now : Nat → String) :
    ∀ (l : List Connector) (k : Nat),
      (GETloop env now l k).map Item.id = l.map Connector.id := by
  intro l
  induction l with
  | nil => intro k; rfl
  | cons c rest ih => intro k; simp [GETloop, ih, probeItem_id]

theorem startUrls_GETtraceLoop :
    ∀ (l : List Connector) (k : Nat),
      startUrls (GETtraceLoop l k) = l.map healthUrl := by
  intro l
  induction l with
  | nil => intro k; rfl
  | cons c rest ih => intro k; simp [GETtraceLoop, startUrls, ih]

theorem oneAtATime_GETtraceLoop :
    ∀ (l : List Connector) (k : Nat),
      oneAtATimeFrom (GETtraceLoop l k) false = true := by
  intro l
  induction l with
  | nil => intro k; rfl
  | cons c rest ih => intro k; simp [GETtraceLoop, oneAtATimeFrom, ih]

/-! ### Sample inputs used by witnesses and counterexamples -/

/-- A sample connector. -/
def cA : Connector := { id := "a", name := "A", url := "http://a" }

/-- A sample connector. -/
def cB : Connector := { id := "b", name := "B", url := "http://b" }

/-- A sample connector whose base URL has a trailing slash. -/
def cC : Connector := { id := "c", name := "C", url := "http://c/" }

/-- Network oracle: every probe gets a 200 response after 5 ms. -/
def envOk : Nat → FetchOutcome := fun _ => .response 200 5

/-- Network oracle: every probe gets a 500 response after 10 ms. -/
def env500 : Nat → FetchOutcome := fun _ => .response 500 10

/-- Network oracle: every probe hits an unreachable host. -/
def envDown : Nat → FetchOutcome := fun _ => .networkError

/-- Timestamp oracle. -/
def nowT : Nat → String := fun _ => "2026-01-01T00:00:00Z"

/-- The report item for `cA` under `envOk`. -/
def itemA : Item := probeItem cA (envOk 0) (nowT 0)

/-! ### Claims -/

/-- C1: for every registry and every assignment of probe outcomes, the
report's item ids are exactly the registry's connector ids in registry
order — `items[i].id == registry[i].id` for all `i`.  The outcome oracle
`env` is universally quantified, so the ordering does not depend on which
probes are slow or fail. -/
theorem C1_report_order_is_registry_order (registry : List Connector)
    (env : Nat → FetchOutcome) (now : Nat → String) :
    (GET registry env now).map Item.id = registry.map Connector.id :=
  GETloop_map_id env now registry 0

/-- C2: one aggregation cycle over a registry of size N produces exactly N
items, for every assignment of probe outcomes (no connector is dropped and
no probe failure suppresses an entry), and the empty registry yields the
empty items list rather than an error. -/
theorem C2_report_has_one_item_per_connector (registry : List Connector)
    (env : Nat → FetchOutcome) (now : Nat → String) :
    (GET registry env now).length = registry.length ∧ GET [] env now = [] :=
  ⟨GET_length registry env now, rfl⟩

/-- C3 counterexample: the claim asserts `ok == false` implies
`status_code` and `latency_ms` are both null, but a 500 response received
after 10 ms yields the report item `(ok := false, status_code := some 500,
latency_ms := some 10)` — `ok` is false while neither field is null. -/
theorem C3_counterexample :
    (GET [cA] env500 nowT).map
        (fun item => (item.ok, item.status_code, item.latency_ms)) =
      [(false, some 500, some 10)] := by decide

/-- C3 amended: in every emitted report item, `ok = true` implies
`status_code` is a successful HTTP status (200–299, fetch `res.ok`) and
`latency_ms` is a non-null elapsed time; `ok = false` implies either both
fields are null (no response: timeout or network failure) or `status_code`
is the received non-successful status and `latency_ms` is non-null. -/
theorem C3_result_invariant_amended (registry : List Connector)
    (env : Nat → FetchOutcome) (now : Nat → String) :
    ∀ item ∈ GET registry env now,
      (item.ok = true →
        ∃ s a, item.status_code = some s ∧ 200 ≤ s ∧ s ≤ 299 ∧
          item.latency_ms = some a) ∧
      (item.ok = false →
        (item.status_code = none ∧ item.latency_ms = none) ∨
        ∃ s a, item.status_code = some s ∧ ¬(200 ≤ s ∧ s ≤ 299) ∧
          item.latency_ms = some a) := by
  intro item hmem
  obtain ⟨c, i, _, rfl⟩ := mem_GETloop env now registry 0 item hmem
  rcases probeItem_cases c (env i) (now i) with ⟨s, a, _, _, hEq⟩ | hEq
  · rw [hEq]
    refine ⟨?_, ?_⟩
    · intro hok
      obtain ⟨h1, h2⟩ := (resOk_eq_true s).mp hok
      exact ⟨s, a, rfl, h1, h2, rfl⟩
    · intro hok
      right
      refine ⟨s, a, rfl, ?_, rfl⟩
      intro hcon
      rw [(resOk_eq_true s).mpr hcon] at hok
      cases hok
  · rw [hEq]
    simp

/-- Witness for C3 amended at a concrete input. -/
theorem C3_result_invariant_amended_witness :
    itemA ∈ GET [cA] envOk nowT ∧
    ((itemA.ok = true →
        ∃ s a, itemA.status_code = some s ∧ 200 ≤ s ∧ s ≤ 299 ∧
          itemA.latency_ms = some a) ∧
      (itemA.ok = false →
        (itemA.status_code = none ∧ itemA.latency_ms = none) ∨
        ∃ s a, itemA.status_code = some s ∧ ¬(200 ≤ s ∧ s ≤ 299) ∧
          itemA.latency_ms = some a)) :=
  ⟨by decide, C3_result_invariant_amended [cA] envOk nowT itemA (by decide)⟩

/-- C4 counterexample: the claim asserts that a response in the range
200–399 received before the timeout yields `ok = true`, but 304 is in that
range and `fetchWithTimeout` returns `ok = false` for it: fetch `res.ok`
is true only for 200–299, so the emitted item has `ok = false`. -/
theorem C4_counterexample :
    (200 ≤ (304 : Nat) ∧ (304 : Nat) ≤ 399 ∧ (10 : Nat) < defaultTimeoutMs) ∧
    fetchWithTimeout (.response 304 10) defaultTimeoutMs =
      .ok { ok := false, status_code := 304, latency_ms := 10 } ∧
    (probeItem cA (.response 304 10) "t").ok = false :=
  ⟨by decide, rfl, rfl⟩

/-- C4 amended: a response received before the timeout with a status in
the 2xx success range 200–299 (fetch `res.ok`) yields an item with
`ok = true`, `status_code` equal to the received status and `latency_ms`
equal to the elapsed time; 3xx statuses do not count as success. -/
theorem C4_success_range_amended (c : Connector) (t : String) (s a : Nat)
    (h1 : a < defaultTimeoutMs) (h2 : 200 ≤ s) (h3 : s ≤ 299) :
    probeItem c (.response s a) t =
      { id := c.id, name := c.name, url := c.url, ok := true,
        status_code := some s, latency_ms := some a, checked_at := t } := by
  have hok : resOk s = true := (resOk_eq_true s).mpr ⟨h2, h3⟩
  simp [probeItem, fetchWithTimeout, h1, hok]

/-- Witness for C4 amended at a concrete input. -/
theorem C4_success_range_amended_witness :
    ((5 : Nat) < defaultTimeoutMs ∧ 200 ≤ (204 : Nat) ∧ (204 : Nat) ≤ 299) ∧
    probeItem cA (.response 204 5) "t" =
      { id := cA.id, name := cA.name, url := cA.url, ok := true,
        status_code := some 204, latency_ms := some 5, checked_at := "t" } :=
  ⟨by decide,
   C4_success_range_amended cA "t" 204 5 (by decide) (by decide) (by decide)⟩

/-- C5: a response received before the timeout with a non-2xx/3xx status
yields `ok = false` with the received `status_code` preserved (and the
elapsed time recorded), and `status_code` is null in an emitted item only
when no response was received — a network-level failure or a response
that would arrive after the timeout (so the request was aborted). -/
theorem C5_http_failure_preserves_status (c : Connector) (t : String)
    (o : FetchOutcome) :
    (∀ s a, o = .response s a → a < defaultTimeoutMs → (s < 200 ∨ 399 < s) →
      probeItem c o t =
        { id := c.id, name := c.name, url := c.url, ok := false,
          status_code := some s, latency_ms := some a, checked_at := t }) ∧
    ((probeItem c o t).status_code = none →
      o = .networkError ∨ ∃ s a, o = .response s a ∧ defaultTimeoutMs ≤ a) := by
  constructor
  · rintro s a rfl h1 h2
    have hnot : ¬(200 ≤ s ∧ s ≤ 299) := by omega
    have hok : resOk s = false := by
      cases hb : resOk s
      · rfl
      · exact absurd ((resOk_eq_true s).mp hb) hnot
    simp [probeItem, fetchWithTimeout, h1, hok]
  · intro hnone
    cases o with
    | networkError => exact Or.inl rfl
    | response s a =>
      refine Or.inr ⟨s, a, rfl, ?_⟩
      by_contra hlt
      have h1 : a < defaultTimeoutMs := by omega
      simp [probeItem, fetchWithTimeout, h1] at hnone

/-- Witness for C5 at concrete inputs: a 500 received after 10 ms keeps
its status code, and a network failure nulls `status_code`. -/
theorem C5_http_failure_preserves_status_witness :
    probeItem cA (.response 500 10) "t" =
      { id := cA.id, name := cA.name, url := cA.url, ok := false,
        status_code := some 500, latency_ms := some 10, checked_at := "t" } ∧
    (FetchOutcome.networkError = FetchOutcome.networkError ∨
      ∃ s a, FetchOutcome.networkError = FetchOutcome.response s a ∧
        defaultTimeoutMs ≤ a) :=
  ⟨(C5_http_failure_preserves_status cA "t" (.response 500 10)).1 500 10 rfl
      (by decide) (by decide),
   (C5_http_failure_preserves_status cA "t" .networkError).2 (by decide)⟩

/-- C6: the aggregation cycle never raises to its caller: for every
registry and every combination of probe outcomes it returns a full-length
report, and every connector whose probe rejects (abort on timeout or
network failure) still gets a report item with `ok = false` and null
`status_code`/`latency_ms`.  The registry itself is an input here, so a
fatal registry-load error is outside `GET` — the only failure mode not
absorbed into a report item. -/
theorem C6_cycle_never_fails (registry : List Connector)
    (env : Nat → FetchOutcome) (now : Nat → String) :
    (GET registry env now).length = registry.length ∧
    ∀ (i : Nat) (hi : i < registry.length)
      (h2 : i < (GET registry env now).length) (e : FetchError),
      fetchWithTimeout (env i) defaultTimeoutMs = .error e →
      (GET registry env now).get ⟨i, h2⟩ =
        { id := (registry.get ⟨i, hi⟩).id, name := (registry.get ⟨i, hi⟩).name,
          url := (registry.get ⟨i, hi⟩).url, ok := false,
          status_code := none, latency_ms := none, checked_at := now i } := by
  refine ⟨GET_length registry env now, ?_⟩
  intro i hi h2 e he
  have hget := GETloop_get env now registry 0 i hi h2
  rw [Nat.zero_add] at hget
  show (GETloop env now registry 0).get ⟨i, h2⟩ = _
  rw [hget]
  simp [probeItem, he]

/-- Witness for C6 at a concrete input: one unreachable connector. -/
theorem C6_cycle_never_fails_witness :
    (GET [cA] envDown nowT).length = [cA].length ∧
    (GET [cA] envDown nowT).get ⟨0, by decide⟩ =
      { id := cA.id, name := cA.name, url := cA.url, ok := false,
        status_code := none, latency_ms := none, checked_at := nowT 0 } :=
  ⟨(C6_cycle_never_fails [cA] envDown nowT).1,
   (C6_cycle_never_fails [cA] envDown nowT).2 0 (by decide) (by decide)
     FetchError.network rfl⟩

/-- C7 counterexample: the claim asserts probes are dispatched
concurrently through a worker pool rather than one at a time, but on a
three-connector registry the cycle's event trace is strictly sequential —
each probe's request is issued only after the previous probe settles, and
`oneAtATime` holds of the trace (at most one request in flight, ever).
The source has no `max_concurrency` at all: the loop `await`s each
`fetchWithTimeout` before the next iteration. -/
theorem C7_counterexample :
    GETtrace [cA, cB, cC] =
      [Event.fetchStart 0 "http://a/health", Event.fetchDone 0,
       Event.fetchStart 1 "http://b/health", Event.fetchDone 1,
       Event.fetchStart 2 "http://c/health", Event.fetchDone 2] ∧
    oneAtATime (GETtrace [cA, cB, cC]) = true := by decide

/-- C7 amended: during one aggregation cycle the probes are executed
strictly sequentially, one at a time in registry order — probe `i + 1`
starts only after probe `i` settles, so at most one request is ever in
flight; there is no worker pool and no `max_concurrency` bound. -/
theorem C7_probing_is_sequential_amended (registry : List Connector) :
    oneAtATime (GETtrace registry) = true :=
  oneAtATime_GETtraceLoop registry 0

/-- C8: the cycle issues exactly one HTTP GET per connector, in registry
order, each to the URL obtained by stripping the trailing slash from the
connector's base URL and appending `/health`. -/
theorem C8_one_get_to_health_url (registry : List Connector) :
    startUrls (GETtrace registry) =
      registry.map (fun c => jsReplaceTrailingSlash c.url ++ "/health") :=
  startUrls_GETtraceLoop registry 0

/-- C9: the probe's default timeout is 4000 ms; a response that would
arrive at or after the timeout is never returned — the abort controller
cancels the request and the probe rejects with an abort error; and each
cycle issues exactly one request per connector (no internal retry). -/
theorem C9_single_attempt_default_timeout :
    defaultTimeoutMs = 4000 ∧
    (∀ s a t, t ≤ a →
      fetchWithTimeout (.response s a) t = .error .aborted) ∧
    (∀ registry : List Connector,
      (startUrls (GETtrace registry)).length = registry.length) := by
  refine ⟨rfl, ?_, ?_⟩
  · intro s a t h
    have hna : ¬ a < t := by omega
    simp [fetchWithTimeout, hna]
  · intro registry
    show (startUrls (GETtraceLoop registry 0)).length = registry.length
    rw [startUrls_GETtraceLoop]
    simp

/-- Witness for C9 at a concrete input: a response arriving exactly at the
4000 ms deadline is aborted. -/
theorem C9_single_attempt_default_timeout_witness :
    defaultTimeoutMs = 4000 ∧
    fetchWithTimeout (.response 200 4000) 4000 = .error .aborted ∧
    (startUrls (GETtrace [cA])).length = [cA].length :=
  ⟨C9_single_attempt_default_timeout.1,
   C9_single_attempt_default_timeout.2.1 200 4000 4000 (by decide),
   C9_single_attempt_default_timeout.2.2 [cA]⟩

/-- C10: in every emitted report item, `status_code` is null exactly when
`latency_ms` is null — the two fields are set together (response received)
or nulled together (abort or network failure) — and a non-null
`latency_ms` is a non-negative elapsed time. -/
theorem C10_status_and_latency_null_together (registry : List Connector)
    (env : Nat → FetchOutcome) (now : Nat → String) :
    ∀ item ∈ GET registry env now,
      ((item.status_code = none) ↔ (item.latency_ms = none)) ∧
      ∀ a, item.latency_ms = some a → 0 ≤ a := by
  intro item hmem
  obtain ⟨c, i, _, rfl⟩ := mem_GETloop env now registry 0 item hmem
  rcases probeItem_cases c (env i) (now i) with ⟨s, a, _, _, hEq⟩ | hEq <;>
    rw [hEq] <;> simp

/-- Witness for C10 at a concrete input. -/
theorem C10_status_and_latency_null_together_witness :
    itemA ∈ GET [cA] envOk nowT ∧
    (((itemA.status_code = none) ↔ (itemA.latency_ms = none)) ∧
      ∀ a, itemA.latency_ms = some a → 0 ≤ a) :=
  ⟨by decide,
   C10_status_and_latency_null_together [cA] envOk nowT itemA (by decide)⟩

end StatusRoute
